import Mathlib

/-!
Verification development for the LoRa-L298N tank controller services.

The definitions below are a shallow embedding of the Python sources:
  * `control_broker/services/connection_manager.py` (the device registry),
  * `control_broker/services/redis_listener.py` (the command-stream consumer),
  * `control_broker/app.py` (the inbound device frame handling),
  * `visual_controller/app.py` (the UI fan-out and the command endpoint).

Timestamps are modelled as integers (seconds), websocket handles as natural
numbers, and Redis stream entry ids as natural numbers.  Socket and stream
I/O is represented by explicit event lists and by outcome parameters where
the Python code branches on the result of an external call.
-/

namespace Tank

/-- JSON-like values exchanged between broker, devices and UI, following the
structural-variant representation: string, number, boolean, null, array,
object (a list of key/value pairs in insertion order, as in a Python dict). -/
inductive Json where
  | null
  | bool (b : Bool)
  | num (n : Int)
  | str (s : String)
  | arr (elems : List Json)
  | obj (fields : List (String × Json))

/-- Python truthiness of a JSON value, used by `if telemetry_snapshot:` in
`visual_controller/app.py`. -/
def Json.truthy : Json → Bool
  | .null => false
  | .bool b => b
  | .num n => decide (n ≠ 0)
  | .str s => !s.isEmpty
  | .arr elems => !elems.isEmpty
  | .obj fields => !fields.isEmpty

/-- Per-tank record kept by the broker (`models.TankInfo`, as constructed and
mutated by `connection_manager.py`). -/
structure TankInfo where
  tank_id : String
  connected_at : Int
  last_seen : Int
  last_payload : Option Json
  commands_sent : Nat
  websocket : Option Nat

/-- Observable socket events emitted by the registry operations, in the order
the Python code performs them. -/
inductive Ev where
  | accept (ws : Nat)
  | hello (ws : Nat)
  | close (ws : Nat) (code : Nat)
  | install (tank_id : String) (ws : Nat)
  | incr (tank_id : String)
  | send (ws : Nat)
deriving DecidableEq

/-- Dict lookup `self._tanks.get(tank_id)`. -/
def lookup_tank (ts : List TankInfo) (id : String) : Option TankInfo :=
  ts.find? (fun i => i.tank_id == id)

/-- Dict assignment `self._tanks[tank_id] = info` (replace if the key is
present, insert at the end otherwise). -/
def set_tank (ts : List TankInfo) (info : TankInfo) : List TankInfo :=
  if ts.any (fun i => i.tank_id == info.tank_id) then
    ts.map (fun i => if i.tank_id == info.tank_id then info else i)
  else ts ++ [info]

/-- The staleness test `(now - info.last_seen) > self._stale_timeout`. -/
def is_stale (now T : Int) (info : TankInfo) : Bool :=
  decide (now - info.last_seen > T)

/-- Effect of `ConnectionManager._prune_stale` on the tank map: every record
whose `staleSeconds` exceed the timeout is popped, the rest are kept. -/
def prune_stale (ts : List TankInfo) (now T : Int) : List TankInfo :=
  ts.filter (fun i => !is_stale now T i)

/-- Close events emitted by `_prune_stale` (best-effort, code 1011) for each
removed record that still held a websocket. -/
def prune_close_events (ts : List TankInfo) (now T : Int) : List Ev :=
  (ts.filter (is_stale now T)).filterMap (fun i => i.websocket.map (fun w => Ev.close w 1011))

/-- Result of `ConnectionManager.register_tank`.  The Python code does not
guard `previous.websocket.close(code=1011)` with `suppress`, so a transport
error raised by that close propagates out of `register_tank`; `closeError`
models that path (the map is left as pruned, the new record never installed). -/
inductive RegResult where
  | ok (tanks : List TankInfo) (info : TankInfo)
  | closeError (tanks : List TankInfo)

/-- `ConnectionManager.register_tank`: opportunistic prune, accept + hello,
then under the lock close a superseded live connection and install the new
record, preserving `last_payload` and `commands_sent` from the previous
record.  `close_fails` is the outcome of the unsuppressed close call on the
previous websocket (irrelevant when there is none). -/
def register_tank (ts : List TankInfo) (id : String) (ws : Nat) (now T : Int)
    (close_fails : Bool) : RegResult :=
  let ts1 := prune_stale ts now T
  match lookup_tank ts1 id with
  | some prev =>
    match prev.websocket with
    | some _ =>
      if close_fails then RegResult.closeError ts1
      else
        let info : TankInfo := ⟨id, now, now, prev.last_payload, prev.commands_sent, some ws⟩
        RegResult.ok (set_tank ts1 info) info
    | none =>
      let info : TankInfo := ⟨id, now, now, prev.last_payload, prev.commands_sent, some ws⟩
      RegResult.ok (set_tank ts1 info) info
  | none =>
    let info : TankInfo := ⟨id, now, now, none, 0, some ws⟩
    RegResult.ok (set_tank ts1 info) info

/-- The socket events of `register_tank`, in program order: the prune's own
closes, the accept, the hello frame, then (when a live previous connection
exists) its close with code 1011, and finally the installation of the new
record - which is skipped when the close raised. -/
def register_events (ts : List TankInfo) (id : String) (ws : Nat) (now T : Int)
    (close_fails : Bool) : List Ev :=
  prune_close_events ts now T ++ [Ev.accept ws, Ev.hello ws] ++
    (match lookup_tank (prune_stale ts now T) id with
     | some prev =>
       match prev.websocket with
       | some w =>
         if close_fails then [Ev.close w 1011]
         else [Ev.close w 1011, Ev.install id ws]
       | none => [Ev.install id ws]
     | none => [Ev.install id ws])

/-- `ConnectionManager.unregister_tank`: prune, then clear the websocket and
bump `last_seen` of the record if it exists (no-op otherwise). -/
def unregister_tank (ts : List TankInfo) (id : String) (now T : Int) : List TankInfo :=
  (prune_stale ts now T).map (fun i =>
    if i.tank_id == id then { i with websocket := none, last_seen := now } else i)

/-- `ConnectionManager.update_last_seen`: refresh `last_seen`; replace
`last_payload` only when a payload is supplied. -/
def update_last_seen (ts : List TankInfo) (id : String) (now : Int)
    (payload : Option Json) : List TankInfo :=
  ts.map (fun i =>
    if i.tank_id == id then
      { i with
          last_seen := now,
          last_payload := match payload with | some p => some p | none => i.last_payload }
    else i)

/-- `ConnectionManager.force_reset`: pop the record unconditionally; report
whether one existed. -/
def force_reset (ts : List TankInfo) (id : String) : List TankInfo × Bool :=
  (ts.filter (fun i => !(i.tank_id == id)), ts.any (fun i => i.tank_id == id))

/-- Result of `ConnectionManager.forward_to_tank`: the tank map after the
call, the counter/send events in program order, and either the websocket the
payload is sent to or the `LookupError("Tank is not connected.")` failure. -/
structure ForwardResult where
  tanks : List TankInfo
  events : List Ev
  outcome : Except Unit Nat

/-- `ConnectionManager.forward_to_tank`: opportunistic prune; raise when the
id is unknown or holds no websocket; otherwise increment `commands_sent`
under the lock and send outside the lock afterwards. -/
def forward_to_tank (ts : List TankInfo) (id : String) (now T : Int) : ForwardResult :=
  let ts1 := prune_stale ts now T
  match lookup_tank ts1 id with
  | none => ⟨ts1, [], Except.error ()⟩
  | some info =>
    match info.websocket with
    | none => ⟨ts1, [], Except.error ()⟩
    | some w =>
      ⟨set_tank ts1 { info with commands_sent := info.commands_sent + 1 },
       [Ev.incr id, Ev.send w], Except.ok w⟩

/-- The live websocket handle the registry holds for `id`, if any. -/
def live_socket (ts : List TankInfo) (id : String) : Option Nat :=
  match lookup_tank ts id with
  | some info => info.websocket
  | none => none

/-- The tank map an attempted registration leaves behind (on the propagated
close error the new record was never installed). -/
def reg_state : RegResult → List TankInfo
  | RegResult.ok ts _ => ts
  | RegResult.closeError ts => ts

/-- Registry states reachable from the empty map through the manager's
public operations. -/
inductive Reach : List TankInfo → Prop where
  | init : Reach []
  | reg (ts id ws now T cf) : Reach ts → Reach (reg_state (register_tank ts id ws now T cf))
  | unreg (ts id now T) : Reach ts → Reach (unregister_tank ts id now T)
  | prune (ts now T) : Reach ts → Reach (prune_stale ts now T)
  | fwd (ts id now T) : Reach ts → Reach (forward_to_tank ts id now T).tanks
  | upd (ts id now p) : Reach ts → Reach (update_last_seen ts id now p)
  | freset (ts id) : Reach ts → Reach (force_reset ts id).1

/-- The keys of the tank map. -/
def tank_keys (ts : List TankInfo) : List String :=
  ts.map (fun i => i.tank_id)

/-- Well-formedness of the embedded map: distinct keys (a Python dict has at
most one value per key). -/
def keys_ok (ts : List TankInfo) : Prop :=
  (tank_keys ts).Nodup

/-- Number of records for `id` that currently hold a live connection. -/
def live_count (ts : List TankInfo) (id : String) : Nat :=
  (ts.filter (fun i => i.tank_id == id && i.websocket.isSome)).length

/-! Command-stream consumer (`control_broker/services/redis_listener.py`).
Stream entry data either fails `StreamCommand` validation (`invalid`) or
yields a target tank id plus the command body that is forwarded. -/

/-- Payload of one Redis command-stream entry as seen after the
`StreamCommand(**data)` validation attempt. -/
inductive StreamEntryData where
  | invalid (raw : String)
  | valid (tank_id : String) (body : List (String × Json))

/-- One Redis command-stream entry: a monotone id and its data. -/
structure StreamEntry where
  id : Nat
  data : StreamEntryData

/-- Outcome of the `forward_to_tank` apply call as observed by the listener:
success, `LookupError` (device not connected), or any other send exception. -/
inductive ApplyOutcome where
  | delivered
  | notConnected
  | sendFailed

/-- Observable effect of `RedisCommandListener._process_message` on one
entry: the invalid-payload warning, whether a forward was attempted, whether
it reported success, whether `xdel` was issued, and whether the consumer
loop continues (it always does; only cancellation stops it). -/
structure ProcEffect where
  warned_invalid : Bool
  forward_attempted : Bool
  delivered : Bool
  delete_attempted : Bool
  continues : Bool
deriving DecidableEq

/-- `RedisCommandListener._process_message`: drop invalid entries with a
warning; otherwise forward, and issue `xdel` exactly when the forward
reported success, swallowing `LookupError` and any other exception. -/
def process_message (d : StreamEntryData) (out : ApplyOutcome) : ProcEffect :=
  match d with
  | StreamEntryData.invalid _ => ⟨true, false, false, false, true⟩
  | StreamEntryData.valid _ _ =>
    match out with
    | ApplyOutcome.delivered => ⟨false, true, true, true, true⟩
    | ApplyOutcome.notConnected => ⟨false, true, false, false, true⟩
    | ApplyOutcome.sendFailed => ⟨false, true, false, false, true⟩

/-- The stream contents after the listener processed entry `e` with apply
outcome `out` (the `xdel`, when issued, removes the entry by its id; the
embedding takes the deletion itself to succeed). -/
def stream_after (stream : List StreamEntry) (e : StreamEntry) (out : ApplyOutcome) :
    List StreamEntry :=
  if (process_message e.data out).delete_attempted then
    stream.filter (fun x => !(x.id == e.id))
  else stream

/-- Reaction of one iteration of a listener loop: the cursor it will read
from next, whether the shared Redis client was reset, how long it sleeps (in
milliseconds), and whether the loop stops. -/
structure ListenerReaction where
  cursor : Nat
  reset_called : Bool
  sleep_ms : Nat
  stops : Bool
deriving DecidableEq

/-- Outcome of one blocking `xread` call. -/
inductive ReadOutcome where
  | batch (entries : List StreamEntry)
  | connError
  | otherError
  | cancelled

/-- One iteration of `RedisCommandListener.start`: a batch advances the
cursor to the last entry id; `asyncio.CancelledError` stops the loop; every
other exception (connection errors included) is logged and followed by
`asyncio.sleep(1.0)` with no reset and no cursor change. -/
def command_listener_step (cursor : Nat) (out : ReadOutcome) : ListenerReaction :=
  match out with
  | ReadOutcome.batch entries => ⟨entries.foldl (fun _ e => e.id) cursor, false, 0, false⟩
  | ReadOutcome.connError => ⟨cursor, false, 1000, false⟩
  | ReadOutcome.otherError => ⟨cursor, false, 1000, false⟩
  | ReadOutcome.cancelled => ⟨cursor, false, 0, true⟩

/-- One iteration of `visual_controller.app.status_listener` (the radar
listener is identical): a connection-class error triggers
`reset_redis_client()` and `asyncio.sleep(0.5)`; any other exception sleeps
one second without a reset; the cursor is only advanced by read entries. -/
def status_listener_step (cursor : Nat) (out : ReadOutcome) : ListenerReaction :=
  match out with
  | ReadOutcome.batch entries => ⟨entries.foldl (fun _ e => e.id) cursor, false, 0, false⟩
  | ReadOutcome.connError => ⟨cursor, true, 500, false⟩
  | ReadOutcome.otherError => ⟨cursor, false, 1000, false⟩
  | ReadOutcome.cancelled => ⟨cursor, false, 0, true⟩

/-! Inbound device frames (`control_broker/app.py`, `tank_channel`). -/

/-- Python `dict.setdefault` on the ordered field list of a JSON object:
append the default at the end only when the key is absent. -/
def setdefault_field (fields : List (String × Json)) (k : String) (v : Json) :
    List (String × Json) :=
  if fields.any (fun p => p.1 == k) then fields else fields ++ [(k, v)]

/-- The payload `tank_channel` hands to `update_last_seen` for one inbound
text frame.  `parsed` is the outcome of `json.loads(message)` (`none` for a
`JSONDecodeError`): a parse failure wraps the raw text, a parsed object gets
`type` defaulted to `"telemetry"`, and a non-object result is replaced by
`None` (here `none`). -/
def tank_channel_payload (message : String) (parsed : Option Json) : Option Json :=
  let payload : Json :=
    match parsed with
    | none => Json.obj [("type", Json.str "telemetry"), ("raw", Json.str message)]
    | some v => v
  match payload with
  | Json.obj fields => some (Json.obj (setdefault_field fields "type" (Json.str "telemetry")))
  | _ => none

/-! UI subscriber fan-out (`visual_controller/app.py`). -/

/-- Dict lookup on an assoc list keyed by strings. -/
def map_get? {α : Type} (m : List (String × α)) (k : String) : Option α :=
  (m.find? (fun p => p.1 == k)).map (fun p => p.2)

/-- Dict assignment on an assoc list keyed by strings. -/
def map_set {α : Type} (m : List (String × α)) (k : String) (v : α) : List (String × α) :=
  if m.any (fun p => p.1 == k) then
    m.map (fun p => if p.1 == k then (k, v) else p)
  else m ++ [(k, v)]

/-- Dict `pop(k, None)` on an assoc list keyed by strings. -/
def map_del {α : Type} (m : List (String × α)) (k : String) : List (String × α) :=
  m.filter (fun p => !(p.1 == k))

/-- The visual controller's module-level state: the per-tank observer sets
(`subscribers`, a defaultdict whose emptied keys are popped) and the two
independently keyed caches `latest_status` and `latest_radar`. -/
structure FanoutState where
  subs : List (String × List Nat)
  latest_status : List (String × Json)
  latest_radar : List (String × Json)

/-- `register_subscriber`: accept, add the observer to the key's set
(creating it if needed), then immediately send the cached telemetry and
radar snapshots for the key when they are present (and truthy, per the
Python `if snapshot:` test).  Returns the new state and the messages sent to
the new observer, in send order. -/
def register_subscriber (st : FanoutState) (k : String) (ws : Nat) :
    FanoutState × List Json :=
  let bucket := (map_get? st.subs k).getD []
  let bucket1 := if bucket.contains ws then bucket else bucket ++ [ws]
  let st1 : FanoutState := { st with subs := map_set st.subs k bucket1 }
  let sends :=
    (match map_get? st.latest_status k with
     | some m => if m.truthy then [m] else []
     | none => []) ++
    (match map_get? st.latest_radar k with
     | some m => if m.truthy then [m] else []
     | none => [])
  (st1, sends)

/-- `unregister_subscriber`: discard the observer; when its set becomes
empty the key is popped from `subscribers`; the caches are untouched. -/
def unregister_subscriber (st : FanoutState) (k : String) (ws : Nat) : FanoutState :=
  match map_get? st.subs k with
  | none => st
  | some bucket =>
    if bucket.isEmpty then st
    else
      let bucket1 := bucket.filter (fun w => !(w == ws))
      if bucket1.isEmpty then { st with subs := map_del st.subs k }
      else { st with subs := map_set st.subs k bucket1 }

/-! Command submission endpoint (`visual_controller/app.py`,
`CommandPayload` and `enqueue_command`). -/

/-- The command whitelist of `CommandPayload.validate_command`. -/
def allowed_commands : List String :=
  ["forward", "backward", "left", "right", "stop", "setspeed"]

/-- Python `str.lower` (ASCII model): lowercase every character. -/
def lower_string (s : String) : String :=
  ⟨s.data.map Char.toLower⟩

/-- `CommandPayload.validate_command`: lowercase the value and require
membership in the whitelist; the lowercase form is what is stored. -/
def validate_command (value : String) : Except String String :=
  let value_lower := lower_string value
  if allowed_commands.contains value_lower then Except.ok value_lower
  else Except.error "Unsupported command"

/-- `CommandPayload.validate_speed`: absent is fine, otherwise the value
must lie in `0 <= value <= 255`. -/
def validate_speed (value : Option Int) : Except String (Option Int) :=
  match value with
  | none => Except.ok none
  | some v =>
    if 0 ≤ v ∧ v ≤ 255 then Except.ok (some v)
    else Except.error "Speed must be between 0 and 255."

/-- A validated `CommandPayload` as stored and enqueued. -/
structure CommandPayload where
  command : String
  leftSpeed : Option Int
  rightSpeed : Option Int
  sequence : Option Int
  timestamp : Option String
deriving DecidableEq

/-- Pydantic validation of a `CommandPayload` from its raw fields: every
field validator must pass for the model to be constructed. -/
def validate_payload (command : String) (l r seq : Option Int) (ts : Option String) :
    Except String CommandPayload := do
  let c ← validate_command command
  let l1 ← validate_speed l
  let r1 ← validate_speed r
  Except.ok ⟨c, l1, r1, seq, ts⟩

/-- Whether an `Except` result is a success. -/
def is_ok {ε α : Type} : Except ε α → Bool
  | Except.ok _ => true
  | Except.error _ => false

/-- Boolean form of the speed-range condition. -/
def speed_in_range : Option Int → Bool
  | none => true
  | some v => decide (0 ≤ v) && decide (v ≤ 255)

/-- `POST /command/{tank_id}`: the payload is validated before the handler
runs; only a validated payload is appended to the command stream (the
stream is modelled as the list of appended `(tankId, payload)` entries). -/
def enqueue_command (tank_id : String) (command : String) (l r seq : Option Int)
    (ts : Option String) (stream : List (String × CommandPayload)) :
    Except String CommandPayload × List (String × CommandPayload) :=
  match validate_payload command l r seq ts with
  | Except.error e => (Except.error e, stream)
  | Except.ok p => (Except.ok p, stream ++ [(tank_id, p)])

/-! Concrete states and entries used to evaluate the definitions. -/

/-- A record whose last message is 700 seconds old but whose websocket is
still live. -/
def live_stale_info : TankInfo := ⟨"t1", 0, 0, none, 0, some 7⟩

/-- A fresh record holding the live websocket `7`. -/
def conn_info : TankInfo := ⟨"t1", 0, 50, none, 3, some 7⟩

/-- A validated command-stream entry addressed to tank `t1`. -/
def offline_entry : StreamEntry := ⟨1, StreamEntryData.valid "t1" [("command", Json.str "stop")]⟩

/-- A stream entry whose data fails `StreamCommand` validation. -/
def bad_entry : StreamEntry := ⟨4, StreamEntryData.invalid "gibberish"⟩

/-- A cached telemetry broadcast for tank `t1`. -/
def cached_msg : Json := Json.obj [("type", Json.str "telemetry"), ("tankId", Json.str "t1")]

/-- Fan-out state with an empty observer map (every observer already
unsubscribed) but a retained cached broadcast for `t1`. -/
def fan_state : FanoutState := ⟨[], [("t1", cached_msg)], []⟩

/-! Helper lemmas. -/

/-- Bind on a successful `Except` computation. -/
theorem ebind_ok {α β : Type} (a : α) (f : α → Except String β) :
    (Except.ok a >>= f) = f a := rfl

/-- Bind on a failed `Except` computation. -/
theorem ebind_error {α β : Type} (e : String) (f : α → Except String β) :
    ((Except.error e : Except String α) >>= f) = Except.error e := rfl

/-- Pruning never invents records. -/
theorem mem_of_mem_prune {ts : List TankInfo} {now T : Int} {i : TankInfo}
    (h : i ∈ prune_stale ts now T) : i ∈ ts :=
  (List.mem_filter.mp h).1

/-- Mapping a key-preserving function over the tank map leaves its keys. -/
theorem tank_keys_map {f : TankInfo → TankInfo} (hf : ∀ i, (f i).tank_id = i.tank_id)
    (ts : List TankInfo) : tank_keys (ts.map f) = tank_keys ts := by
  induction ts with
  | nil => rfl
  | cons a l ih =>
    simp only [tank_keys, List.map_cons] at ih ⊢
    rw [hf a, ih]

/-- Key distinctness restricts along sublists of the tank map. -/
theorem keys_ok_of_sublist {ts ts' : List TankInfo} (h : ts'.Sublist ts)
    (hk : keys_ok ts) : keys_ok ts' :=
  List.Nodup.sublist (h.map _) hk

/-- Pruning keeps the keys distinct. -/
theorem keys_ok_prune {ts : List TankInfo} (now T : Int) (h : keys_ok ts) :
    keys_ok (prune_stale ts now T) :=
  keys_ok_of_sublist (List.filter_sublist ts) h

/-- Dict assignment keeps the keys distinct. -/
theorem keys_ok_set_tank {ts : List TankInfo} (info : TankInfo) (h : keys_ok ts) :
    keys_ok (set_tank ts info) := by
  unfold set_tank
  split
  · rename_i hany
    unfold keys_ok
    rw [tank_keys_map (fun i => ?_)]
    · exact h
    · by_cases hc : (i.tank_id == info.tank_id) = true
      · simp only [hc, if_true]
        exact (beq_iff_eq.mp hc).symm
      · simp [hc]
  · rename_i hany
    have hnotin : info.tank_id ∉ tank_keys ts := by
      intro hmem
      rcases List.mem_map.mp hmem with ⟨i, hi, hid⟩
      exact hany (List.any_eq_true.mpr ⟨i, hi, beq_iff_eq.mpr hid⟩)
    unfold keys_ok tank_keys
    rw [List.map_append]
    exact List.Nodup.append h (List.nodup_singleton _)
      (List.disjoint_singleton.mpr hnotin)

/-- Registration keeps the keys distinct, whichever way it ends. -/
theorem keys_ok_register (ts : List TankInfo) (id : String) (ws : Nat) (now T : Int)
    (cf : Bool) (h : keys_ok ts) :
    keys_ok (reg_state (register_tank ts id ws now T cf)) := by
  have h1 : keys_ok (prune_stale ts now T) := keys_ok_prune now T h
  cases hl : lookup_tank (prune_stale ts now T) id with
  | none =>
    simp only [register_tank, hl, reg_state]
    exact keys_ok_set_tank _ h1
  | some prev =>
    cases hw : prev.websocket with
    | none =>
      simp only [register_tank, hl, hw, reg_state]
      exact keys_ok_set_tank _ h1
    | some w =>
      cases cf with
      | true => simpa only [register_tank, hl, hw, reg_state, if_true] using h1
      | false =>
        simp only [register_tank, hl, hw, reg_state, if_false, Bool.false_eq_true]
        exact keys_ok_set_tank _ h1

/-- Forwarding keeps the keys distinct. -/
theorem keys_ok_forward (ts : List TankInfo) (id : String) (now T : Int)
    (h : keys_ok ts) : keys_ok (forward_to_tank ts id now T).tanks := by
  have h1 : keys_ok (prune_stale ts now T) := keys_ok_prune now T h
  cases hl : lookup_tank (prune_stale ts now T) id with
  | none => simpa only [forward_to_tank, hl] using h1
  | some info =>
    cases hw : info.websocket with
    | none => simpa only [forward_to_tank, hl, hw] using h1
    | some w =>
      simp only [forward_to_tank, hl, hw]
      exact keys_ok_set_tank _ h1

/-- Unregistration keeps the keys distinct. -/
theorem keys_ok_unregister (ts : List TankInfo) (id : String) (now T : Int)
    (h : keys_ok ts) : keys_ok (unregister_tank ts id now T) := by
  unfold unregister_tank keys_ok
  rw [tank_keys_map (fun i => ?_)]
  · exact keys_ok_prune now T h
  · by_cases hc : (i.tank_id == id) = true <;> simp [hc]

/-- Telemetry updates keep the keys distinct. -/
theorem keys_ok_update (ts : List TankInfo) (id : String) (now : Int)
    (p : Option Json) (h : keys_ok ts) : keys_ok (update_last_seen ts id now p) := by
  unfold update_last_seen keys_ok
  rw [tank_keys_map (fun i => ?_)]
  · exact h
  · by_cases hc : (i.tank_id == id) = true <;> simp [hc]

/-- Forced resets keep the keys distinct. -/
theorem keys_ok_force_reset (ts : List TankInfo) (id : String) (h : keys_ok ts) :
    keys_ok (force_reset ts id).1 :=
  keys_ok_of_sublist (List.filter_sublist ts) h

/-- Every reachable registry state has distinct keys, i.e. behaves as the
Python dict it embeds. -/
theorem reach_keys_ok {ts : List TankInfo} (h : Reach ts) : keys_ok ts := by
  induction h with
  | init => simp [keys_ok, tank_keys]
  | reg ts id ws now T cf _ ih => exact keys_ok_register ts id ws now T cf ih
  | unreg ts id now T _ ih => exact keys_ok_unregister ts id now T ih
  | prune ts now T _ ih => exact keys_ok_prune now T ih
  | fwd ts id now T _ ih => exact keys_ok_forward ts id now T ih
  | upd ts id now p _ ih => exact keys_ok_update ts id now p ih
  | freset ts id _ ih => exact keys_ok_force_reset ts id ih

/-- With distinct keys there is at most one record per id, live or not. -/
theorem live_count_le_one {ts : List TankInfo} (h : keys_ok ts) (id : String) :
    live_count ts id ≤ 1 := by
  induction ts with
  | nil => simp [live_count]
  | cons a l ih =>
    have hcons := List.nodup_cons.mp h
    by_cases hc : (a.tank_id == id && a.websocket.isSome) = true
    · have hc1 : (a.tank_id == id) = true ∧ a.websocket.isSome = true := by
        simpa only [Bool.and_eq_true] using hc
      have hid : a.tank_id = id := beq_iff_eq.mp hc1.1
      have hnil : l.filter (fun i => i.tank_id == id && i.websocket.isSome) = [] := by
        rw [List.filter_eq_nil_iff]
        intro i hi hpi
        have hpi1 : (i.tank_id == id) = true ∧ i.websocket.isSome = true := by
          simpa only [Bool.and_eq_true] using hpi
        have hidi : i.tank_id = id := beq_iff_eq.mp hpi1.1
        have hmem : i.tank_id ∈ List.map (fun j => j.tank_id) l :=
          List.mem_map.mpr ⟨i, hi, rfl⟩
        exact hcons.1 (by show a.tank_id ∈ List.map (fun j => j.tank_id) l
                          rw [hid, ← hidi]; exact hmem)
      simp [live_count, List.filter_cons, hc, hnil]
    · simpa [live_count, List.filter_cons, hc] using ih hcons.2

/-- Success characterization of `validate_command`. -/
theorem validate_command_ok_iff (value c : String) :
    validate_command value = Except.ok c ↔
      (allowed_commands.contains (lower_string value) = true ∧ c = lower_string value) := by
  by_cases h : allowed_commands.contains (lower_string value) = true
  · have h' : lower_string value ∈ allowed_commands := by simpa using h
    simp [validate_command, h', eq_comm]
  · have h' : lower_string value ∉ allowed_commands := by simpa using h
    simp [validate_command, h']

/-- Success characterization of `validate_speed`. -/
theorem validate_speed_ok_iff (v w : Option Int) :
    validate_speed v = Except.ok w ↔ (speed_in_range v = true ∧ w = v) := by
  cases v with
  | none => simp [validate_speed, speed_in_range, eq_comm]
  | some x =>
    by_cases h : 0 ≤ x ∧ x ≤ 255
    · simp [validate_speed, speed_in_range, h, h.1, h.2, eq_comm]
    · simp [validate_speed, speed_in_range, h, Bool.and_eq_true, decide_eq_true_eq]

/-- Success characterization of the whole pydantic validation. -/
theorem validate_payload_ok_iff (command : String) (l r seq : Option Int)
    (ts : Option String) (p : CommandPayload) :
    validate_payload command l r seq ts = Except.ok p ↔
      (allowed_commands.contains (lower_string command) = true
       ∧ speed_in_range l = true ∧ speed_in_range r = true
       ∧ p = ⟨lower_string command, l, r, seq, ts⟩) := by
  unfold validate_payload
  constructor
  · intro h
    cases hv : validate_command command with
    | error e => rw [hv, ebind_error] at h; exact absurd h (by simp)
    | ok c =>
      rw [hv, ebind_ok] at h
      cases hsl : validate_speed l with
      | error e => rw [hsl, ebind_error] at h; exact absurd h (by simp)
      | ok l1 =>
        rw [hsl, ebind_ok] at h
        cases hsr : validate_speed r with
        | error e => rw [hsr, ebind_error] at h; exact absurd h (by simp)
        | ok r1 =>
          rw [hsr, ebind_ok] at h
          have hp : p = ⟨c, l1, r1, seq, ts⟩ := by
            injection h with h'
            exact h'.symm
          obtain ⟨hc1, hc2⟩ := (validate_command_ok_iff command c).mp hv
          obtain ⟨hl1, hl2⟩ := (validate_speed_ok_iff l l1).mp hsl
          obtain ⟨hr1, hr2⟩ := (validate_speed_ok_iff r r1).mp hsr
          subst hc2 hl2 hr2
          exact ⟨hc1, hl1, hr1, hp⟩
  · rintro ⟨h1, h2, h3, rfl⟩
    have hv : validate_command command = Except.ok (lower_string command) :=
      (validate_command_ok_iff command _).mpr ⟨h1, rfl⟩
    have hsl : validate_speed l = Except.ok l :=
      (validate_speed_ok_iff l l).mpr ⟨h2, rfl⟩
    have hsr : validate_speed r = Except.ok r :=
      (validate_speed_ok_iff r r).mpr ⟨h3, rfl⟩
    rw [hv, ebind_ok, hsl, ebind_ok, hsr, ebind_ok]

/-! Claim theorems. -/

/-- C1 counterexample: a record with a live websocket whose `staleSeconds`
exceed the threshold is removed by `_prune_stale`, so "a record with a live
connection is never removed by pruneStale" is false of the code. -/
theorem claim_C1_counterexample :
    live_stale_info.websocket = some 7
    ∧ is_stale 700 600 live_stale_info = true
    ∧ prune_stale [live_stale_info] 700 600 = [] :=
  ⟨rfl, rfl, rfl⟩

/-- C1 (amended): `pruneStale(T)` removes exactly the set of records whose
`staleSeconds` exceed `T`, regardless of live connections; a removed record
that still holds a websocket has it closed (best-effort, code 1011) as part
of the prune. -/
theorem claim_C1_prune_removes_exactly_stale (ts : List TankInfo) (now T : Int) :
    (∀ info, info ∈ prune_stale ts now T ↔ info ∈ ts ∧ now - info.last_seen ≤ T)
    ∧ (∀ info w, info ∈ ts → now - info.last_seen > T → info.websocket = some w →
        Ev.close w 1011 ∈ prune_close_events ts now T) := by
  constructor
  · intro info
    simp [prune_stale, is_stale, List.mem_filter, not_lt]
  · intro info w hmem hstale hws
    simp only [prune_close_events, List.mem_filterMap]
    exact ⟨info, List.mem_filter.mpr ⟨hmem, by simp [is_stale, hstale]⟩, by simp [hws]⟩

/-- C1 witness: the amended statement evaluated on the one-record registry
holding the stale-but-live record. -/
theorem claim_C1_prune_removes_exactly_stale_witness :
    (live_stale_info ∈ prune_stale [live_stale_info] 700 600 ↔
       live_stale_info ∈ [live_stale_info] ∧ (700 : Int) - live_stale_info.last_seen ≤ 600)
    ∧ Ev.close 7 1011 ∈ prune_close_events [live_stale_info] 700 600 :=
  ⟨(claim_C1_prune_removes_exactly_stale [live_stale_info] 700 600).1 live_stale_info,
   (claim_C1_prune_removes_exactly_stale [live_stale_info] 700 600).2 live_stale_info 7
     (List.mem_singleton.mpr rfl) (by decide) rfl⟩

/-- C5 (code bug): when a registration supersedes a live connection and the
close of that connection raises, `register_tank` propagates the error (the
close is not wrapped in `suppress`, unlike every other close site in
`ConnectionManager`), so the new registration does not complete and the old
record stays installed — the spec says the close error is swallowed. -/
theorem claim_C5_close_error_aborts_registration :
    conn_info.websocket = some 7
    ∧ register_tank [conn_info] "t1" 9 100 600 true = RegResult.closeError [conn_info] :=
  ⟨rfl, rfl⟩

/-- C6 counterexample: on a connection-class read failure the command
listener performs no reset of the shared connection and sleeps a full
second (not sub-second). -/
theorem claim_C6_counterexample :
    (command_listener_step 5 ReadOutcome.connError).reset_called = false
    ∧ (command_listener_step 5 ReadOutcome.connError).sleep_ms = 1000 :=
  ⟨rfl, rfl⟩

/-- C6 (amended): on a connection-class read failure the status/radar
listener resets the shared Redis client and sleeps 0.5 s before retrying
the same cursor; the command listener only logs and sleeps 1.0 s, without a
reset — in both loops the failed read leaves the cursor unchanged and the
loop continues. -/
theorem claim_C6_backoff_behaviour (c : Nat) :
    status_listener_step c ReadOutcome.connError
      = ⟨c, true, 500, false⟩
    ∧ command_listener_step c ReadOutcome.connError
      = ⟨c, false, 1000, false⟩ :=
  ⟨rfl, rfl⟩

/-- C7 counterexample: an entry failing validation is warned about and not
forwarded, but it is left in the stream exactly like a retry-eligible entry
(no `xdel` is issued for it), so "never redelivered (it is not left for
retry)" is false of the code: a future read from an earlier cursor re-reads
it. -/
theorem claim_C7_counterexample :
    (process_message bad_entry.data ApplyOutcome.delivered).warned_invalid = true
    ∧ (process_message bad_entry.data ApplyOutcome.delivered).forward_attempted = false
    ∧ stream_after [bad_entry] bad_entry ApplyOutcome.delivered = [bad_entry] :=
  ⟨rfl, rfl, rfl⟩

/-- C7 (amended): an entry failing validation is dropped with a warning,
never forwarded, and the consumer continues; the entry is however not
deleted from the stream — it stays in place (the in-run cursor has merely
advanced past it). -/
theorem claim_C7_invalid_entries_dropped (raw : String) (out : ApplyOutcome)
    (stream : List StreamEntry) (e : StreamEntry)
    (h : e.data = StreamEntryData.invalid raw) :
    process_message e.data out = ⟨true, false, false, false, true⟩
    ∧ stream_after stream e out = stream := by
  constructor
  · rw [h]; rfl
  · simp [stream_after, h, process_message]

/-- C7 witness: the amended statement evaluated on the invalid entry. -/
theorem claim_C7_invalid_entries_dropped_witness :
    process_message bad_entry.data ApplyOutcome.notConnected = ⟨true, false, false, false, true⟩
    ∧ stream_after [offline_entry] bad_entry ApplyOutcome.notConnected = [offline_entry] :=
  claim_C7_invalid_entries_dropped "gibberish" ApplyOutcome.notConnected
    [offline_entry] bad_entry rfl

/-- C8: an inbound frame whose text fails JSON parsing reaches
`update_last_seen` as exactly `{"type": "telemetry", "raw": <text>}`, and a
frame parsing to an object without a `type` key reaches it with
`type: "telemetry"` appended (`parsed` is the outcome of `json.loads`). -/
theorem claim_C8_raw_frame_roundtrip :
    (∀ message : String,
       tank_channel_payload message none
         = some (Json.obj [("type", Json.str "telemetry"), ("raw", Json.str message)]))
    ∧ (∀ (message : String) (fields : List (String × Json)),
        fields.any (fun p => p.1 == "type") = false →
        tank_channel_payload message (some (Json.obj fields))
          = some (Json.obj (fields ++ [("type", Json.str "telemetry")]))) := by
  constructor
  · intro message; rfl
  · intro message fields h
    simp [tank_channel_payload, setdefault_field, h]

/-- C8 witness: a raw non-JSON frame and a typeless telemetry object. -/
theorem claim_C8_raw_frame_roundtrip_witness :
    tank_channel_payload "speed:3" none
      = some (Json.obj [("type", Json.str "telemetry"), ("raw", Json.str "speed:3")])
    ∧ tank_channel_payload "x" (some (Json.obj [("speed", Json.num 3)]))
      = some (Json.obj [("speed", Json.num 3), ("type", Json.str "telemetry")]) :=
  ⟨claim_C8_raw_frame_roundtrip.1 "speed:3",
   claim_C8_raw_frame_roundtrip.2 "x" [("speed", Json.num 3)] rfl⟩

/-- C2: `forward_to_tank` raises the single NotConnected condition exactly
when the registry (after its own inline opportunistic prune) holds no live
websocket for the id; in that case the tank map is left as pruned, so every
surviving record — in particular its `commands_sent` — is unchanged; when a
live websocket is found, `commands_sent` is incremented in the map that is
returned together with the still-pending send, and the event trace is the
increment followed by the send attempt. -/
theorem claim_C2_forward_not_connected (ts : List TankInfo) (id : String) (now T : Int) :
    ((forward_to_tank ts id now T).outcome = Except.error () ↔
       live_socket (prune_stale ts now T) id = none)
    ∧ ((forward_to_tank ts id now T).outcome = Except.error () →
       (forward_to_tank ts id now T).tanks = prune_stale ts now T
       ∧ ∀ i ∈ (forward_to_tank ts id now T).tanks, i ∈ ts)
    ∧ (∀ info w, lookup_tank (prune_stale ts now T) id = some info →
       info.websocket = some w →
       (forward_to_tank ts id now T).outcome = Except.ok w
       ∧ (forward_to_tank ts id now T).tanks
           = set_tank (prune_stale ts now T)
               { info with commands_sent := info.commands_sent + 1 }
       ∧ (forward_to_tank ts id now T).events = [Ev.incr id, Ev.send w]) := by
  cases hl : lookup_tank (prune_stale ts now T) id with
  | none =>
    refine ⟨by simp [forward_to_tank, live_socket, hl], ?_, ?_⟩
    · intro _
      refine ⟨by simp [forward_to_tank, hl], ?_⟩
      intro i hi
      simp only [forward_to_tank, hl] at hi
      exact mem_of_mem_prune hi
    · intro info w hinfo
      exact absurd hinfo (by simp)
  | some info =>
    cases hw : info.websocket with
    | none =>
      refine ⟨by simp [forward_to_tank, live_socket, hl, hw], ?_, ?_⟩
      · intro _
        refine ⟨by simp [forward_to_tank, hl, hw], ?_⟩
        intro i hi
        simp only [forward_to_tank, hl, hw] at hi
        exact mem_of_mem_prune hi
      · intro info' w hinfo hw'
        have : info = info' := by injection hinfo
        rw [← this] at hw'
        rw [hw] at hw'
        exact absurd hw' (by simp)
    | some w =>
      refine ⟨by simp [forward_to_tank, live_socket, hl, hw], ?_, ?_⟩
      · intro hout
        simp [forward_to_tank, hl, hw] at hout
      · intro info' w' hinfo hw'
        have hi : info = info' := by injection hinfo
        rw [← hi] at hw'
        rw [hw] at hw'
        have hww : w = w' := by injection hw'
        subst hi hww
        exact ⟨by simp [forward_to_tank, hl, hw],
               by simp [forward_to_tank, hl, hw],
               by simp [forward_to_tank, hl, hw]⟩

/-- C2 witness: forwarding to the connected tank `t1` succeeds on websocket
7 with the increment-then-send trace. -/
theorem claim_C2_forward_not_connected_witness :
    (forward_to_tank [conn_info] "t1" 100 600).outcome = Except.ok 7
    ∧ (forward_to_tank [conn_info] "t1" 100 600).events = [Ev.incr "t1", Ev.send 7] :=
  ⟨((claim_C2_forward_not_connected [conn_info] "t1" 100 600).2.2 conn_info 7 rfl rfl).1,
   ((claim_C2_forward_not_connected [conn_info] "t1" 100 600).2.2 conn_info 7 rfl rfl).2.2⟩

/-- C3: in the acknowledge-mode command consumer, `xdel` is issued for an
entry exactly when the entry validated and its forward reported success;
with no delete the stream is unchanged (the entry stays for redelivery),
with a delete the entry is gone; and the consumer continues in every case. -/
theorem claim_C3_delete_iff_delivered (e : StreamEntry) (out : ApplyOutcome)
    (stream : List StreamEntry) :
    ((process_message e.data out).delete_attempted = true ↔
       (∃ t body, e.data = StreamEntryData.valid t body) ∧ out = ApplyOutcome.delivered)
    ∧ ((process_message e.data out).delete_attempted = false →
        stream_after stream e out = stream)
    ∧ ((process_message e.data out).delete_attempted = true →
        e ∉ stream_after stream e out)
    ∧ (process_message e.data out).continues = true := by
  obtain ⟨eid, d⟩ := e
  cases d <;> cases out <;>
    simp [process_message, stream_after, List.mem_filter]

/-- C3 witness: a validated entry whose target is offline is left in the
stream; the same entry, once delivered, is deleted. -/
theorem claim_C3_delete_iff_delivered_witness :
    stream_after [offline_entry] offline_entry ApplyOutcome.notConnected = [offline_entry]
    ∧ offline_entry ∉ stream_after [offline_entry] offline_entry ApplyOutcome.delivered
    ∧ (process_message offline_entry.data ApplyOutcome.notConnected).continues = true :=
  ⟨(claim_C3_delete_iff_delivered offline_entry ApplyOutcome.notConnected [offline_entry]).2.1
     rfl,
   (claim_C3_delete_iff_delivered offline_entry ApplyOutcome.delivered [offline_entry]).2.2.1
     rfl,
   (claim_C3_delete_iff_delivered offline_entry ApplyOutcome.notConnected [offline_entry]).2.2.2⟩

/-- C4: a reachable registry holds at most one record (hence at most one
live connection) per device id, and when a registration supersedes an
existing live connection, the close of the previous websocket appears in
the registration's event trace strictly before the installation of the new
record. -/
theorem claim_C4_single_live_connection :
    (∀ ts, Reach ts → ∀ id, live_count ts id ≤ 1)
    ∧ (∀ (ts : List TankInfo) (id : String) (ws : Nat) (now T : Int)
         (prev : TankInfo) (w : Nat),
        lookup_tank (prune_stale ts now T) id = some prev →
        prev.websocket = some w →
        ∃ l1 l2 l3, register_events ts id ws now T false
          = l1 ++ Ev.close w 1011 :: (l2 ++ Ev.install id ws :: l3)) := by
  constructor
  · intro ts h id
    exact live_count_le_one (reach_keys_ok h) id
  · intro ts id ws now T prev w hl hw
    refine ⟨prune_close_events ts now T ++ [Ev.accept ws, Ev.hello ws], [], [], ?_⟩
    simp [register_events, hl, hw, List.append_assoc]

/-- C4 witness: the empty registry (reachable) has at most one live record
for `t1`, and registering websocket 9 over the live websocket 7 closes 7
before installing the new record. -/
theorem claim_C4_single_live_connection_witness :
    live_count [] "t1" ≤ 1
    ∧ ∃ l1 l2 l3, register_events [conn_info] "t1" 9 100 600 false
        = l1 ++ Ev.close 7 1011 :: (l2 ++ Ev.install "t1" 9 :: l3) :=
  ⟨claim_C4_single_live_connection.1 [] Reach.init "t1",
   claim_C4_single_live_connection.2 [conn_info] "t1" 9 100 600 conn_info 7 rfl rfl⟩

/-- C9: `register_subscriber` immediately delivers the cached latest
telemetry for the key whenever one is cached (the cache value, a non-empty
object in every reachable state, passes the Python truthiness test) — for
any contents of the observer map, in particular after every previous
observer unsubscribed — and `unregister_subscriber` never touches the two
caches, which are keyed independently of the observer sets. -/
theorem claim_C9_resubscribe_sees_cache :
    (∀ (st : FanoutState) (k : String) (ws : Nat) (m : Json),
       map_get? st.latest_status k = some m → m.truthy = true →
       m ∈ (register_subscriber st k ws).2)
    ∧ (∀ (st : FanoutState) (k : String) (ws : Nat),
       (unregister_subscriber st k ws).latest_status = st.latest_status
       ∧ (unregister_subscriber st k ws).latest_radar = st.latest_radar) := by
  constructor
  · intro st k ws m h1 h2
    simp only [register_subscriber, h1, h2, if_true]
    cases map_get? st.latest_radar k <;> simp
  · intro st k ws
    unfold unregister_subscriber
    cases map_get? st.subs k with
    | none => exact ⟨rfl, rfl⟩
    | some bucket =>
      by_cases hb : bucket.isEmpty
      · simp [hb]
      · by_cases hb1 : (bucket.filter (fun w => !(w == ws))).isEmpty
        · simp [hb, hb1]
        · simp [hb, hb1]

/-- C9 witness: with an empty observer map (everyone unsubscribed earlier)
and a retained cached broadcast for `t1`, a new subscription immediately
receives the cached message; unsubscribing leaves the cache in place. -/
theorem claim_C9_resubscribe_sees_cache_witness :
    cached_msg ∈ (register_subscriber fan_state "t1" 3).2
    ∧ (unregister_subscriber fan_state "t1" 3).latest_status = fan_state.latest_status :=
  ⟨claim_C9_resubscribe_sees_cache.1 fan_state "t1" 3 cached_msg rfl rfl,
   (claim_C9_resubscribe_sees_cache.2 fan_state "t1" 3).1⟩

/-- C10: the command endpoint accepts a submission exactly when the command
lowercases into the whitelist and both optional speeds lie in 0..255; an
accepted payload is stored with the lowercase command and appended to the
command stream; a rejected payload leaves the stream untouched. -/
theorem claim_C10_command_validation (tank_id command : String) (l r seq : Option Int)
    (ts : Option String) (stream : List (String × CommandPayload)) :
    (is_ok (enqueue_command tank_id command l r seq ts stream).1 = true ↔
       (allowed_commands.contains (lower_string command) = true
        ∧ speed_in_range l = true ∧ speed_in_range r = true))
    ∧ (∀ p, (enqueue_command tank_id command l r seq ts stream).1 = Except.ok p →
        p = ⟨lower_string command, l, r, seq, ts⟩
        ∧ (enqueue_command tank_id command l r seq ts stream).2 = stream ++ [(tank_id, p)])
    ∧ (is_ok (enqueue_command tank_id command l r seq ts stream).1 = false →
        (enqueue_command tank_id command l r seq ts stream).2 = stream) := by
  cases hvp : validate_payload command l r seq ts with
  | error e =>
    refine ⟨?_, ?_, ?_⟩
    · simp only [enqueue_command, hvp, is_ok]
      constructor
      · intro hfalse
        exact absurd hfalse (by simp)
      · rintro ⟨h1, h2, h3⟩
        have hok := (validate_payload_ok_iff command l r seq ts
          ⟨lower_string command, l, r, seq, ts⟩).mpr ⟨h1, h2, h3, rfl⟩
        rw [hvp] at hok
        exact absurd hok (by simp)
    · intro p hp
      simp only [enqueue_command, hvp] at hp
      exact absurd hp (by simp)
    · intro _
      simp [enqueue_command, hvp]
  | ok p0 =>
    obtain ⟨h1, h2, h3, hp0⟩ := (validate_payload_ok_iff command l r seq ts p0).mp hvp
    refine ⟨?_, ?_, ?_⟩
    · simp only [enqueue_command, hvp, is_ok]
      exact ⟨fun _ => ⟨h1, h2, h3⟩, fun _ => by trivial⟩
    · intro p hp
      simp only [enqueue_command, hvp] at hp
      have hpp : p0 = p := by injection hp
      subst hpp
      exact ⟨hp0, by simp [enqueue_command, hvp]⟩
    · intro hfalse
      simp only [enqueue_command, hvp, is_ok] at hfalse
      exact absurd hfalse (by simp)

/-- C10 witness: `FORWARD` with speeds 100/200 is accepted, lowercased and
appended to the empty stream. -/
theorem claim_C10_command_validation_witness :
    is_ok (enqueue_command "t1" "FORWARD" (some 100) (some 200) none none []).1 = true
    ∧ (enqueue_command "t1" "FORWARD" (some 100) (some 200) none none []).2
        = [("t1", ⟨"forward", some 100, some 200, none, none⟩)] :=
  ⟨(claim_C10_command_validation "t1" "FORWARD" (some 100) (some 200) none none []).1.mpr
     ⟨rfl, rfl, rfl⟩,
   ((claim_C10_command_validation "t1" "FORWARD" (some 100) (some 200) none none []).2.1
     ⟨"forward", some 100, some 200, none, none⟩ rfl).2⟩

end Tank
